import Mathlib

/-!
Verification of the AutoPost batch-publishing script (`post.js`).

The definitions below are a shallow embedding of the primary variant of
`post.js`: the rate-limit configuration, the error classification used in
the `catch` block of `postToBloggerWithRetry`, the retry executor itself,
and the batch driver loop `postToBlogger`.  Effects (remote insert calls,
sleeps, file writes, chat messages, report generation) are recorded in an
event trace; persisted files are threaded explicitly as a `Files` record.
-/

namespace AutoPost

/-- Boolean test that `pat` occurs as a contiguous sublist of `l`. -/
def infixOf (pat : List Char) : List Char → Bool
  | [] => pat.isEmpty
  | c :: tl => pat.isPrefixOf (c :: tl) || infixOf pat tl

/-- JS `s.includes(pat)`: `pat` occurs as a substring of `s`. -/
def includes (s pat : String) : Bool :=
  infixOf pat.toList s.toList

/-- Rate limiting configuration (`RATE_LIMIT` object in `post.js`). -/
def RATE_LIMIT_MAX_RETRIES : Nat := 5

/-- `RATE_LIMIT.BASE_DELAY` = 10 seconds, in milliseconds. -/
def RATE_LIMIT_BASE_DELAY : Nat := 10000

/-- `RATE_LIMIT.QUOTA_DELAY` = 1 hour, in milliseconds. -/
def RATE_LIMIT_QUOTA_DELAY : Nat := 3600000

/-- `RATE_LIMIT.MAX_POSTS_PER_HOUR`. -/
def RATE_LIMIT_MAX_POSTS_PER_HOUR : Nat := 50

/-- One entry of the structured `error.errors` array of a Google API error. -/
structure ErrItem where
  reason : String
deriving Repr, DecidableEq

/-- A JS error value as inspected by the script: an optional numeric HTTP
`code`, a `message` string, and the structured `errors` array. -/
structure ApiError where
  code : Option Nat
  message : String
  errors : List ErrItem
deriving Repr, DecidableEq

/-- The response data of a successful `blogger.posts.insert` call. -/
structure BlogData where
  url : String
  id : String
deriving Repr, DecidableEq

/-- A candidate post passed to `postToBloggerWithRetry` (title known to be
a string at that point). -/
structure Post where
  title : String
  content : String
  labels : List String
deriving Repr, DecidableEq

/-- A raw entry of `posts.json`: its `title` field may be absent (or not a
string), which we model as `Option String`. -/
structure RawPost where
  title : Option String
  content : String
  labels : List String
deriving Repr, DecidableEq

/-- One entry of `progress.failed`: `{index, title, error}`. -/
structure FailedEntry where
  index : Nat
  title : String
  error : String
deriving Repr, DecidableEq

/-- The progress cursor record persisted in `progress.json`. -/
structure Progress where
  lastProcessed : Int
  failed : List FailedEntry
deriving Repr, DecidableEq

/-- The persisted JSON files the script reads and writes. -/
structure Files where
  progressFile : Progress
  postedFile : List String
  titlesFile : List String
  failedPostsFile : Option (List FailedEntry)
deriving Repr, DecidableEq

/-- Observable events of a run, in order: the per-item console header,
remote insert calls, sleeps, file writes, chat notifications, reports. -/
inductive Ev where
  | beginItem (i : Nat)
  | insertCall (title : String)
  | wait (ms : Nat)
  | savePostedFile (ids : List String)
  | saveTitlesFile (ts : List String)
  | saveProgressFile (p : Progress)
  | notify (msg : String)
  | saveFailedPostsFile (l : List FailedEntry)
  | report (reason : String)
deriving Repr, DecidableEq

/-- Outcome of one `postToBloggerWithRetry` invocation: the resolved value
(`{skipped:true}` or `{success:true, data}`) or the thrown error. -/
inductive Outcome where
  | skipped
  | success (data : BlogData)
  | thrown (e : ApiError)
deriving Repr, DecidableEq

/-- Result of the retry executor: outcome, updated in-memory sets, updated
persisted files, and the trace of effects it performed. -/
structure RetryResult where
  outcome : Outcome
  postedIds : List String
  existingTitles : List String
  files : Files
  trace : List Ev
deriving Repr, DecidableEq

/-- JS `Set.add`: append the element if it is not already a member. -/
def addToSet (x : String) (s : List String) : List String :=
  if s.contains x then s else s ++ [x]

/-- The `isRateLimitError` classification in the `catch` block of
`postToBloggerWithRetry` (lines 222-229 of `post.js`). -/
def isRateLimitError (e : ApiError) : Bool :=
  e.code == some 429 ||
  e.code == some 403 ||
  includes e.message "quotaExceeded" ||
  includes e.message "Daily Limit Exceeded" ||
  includes e.message "User Rate Limit Exceeded" ||
  includes e.message "too many requests" ||
  e.errors.any (fun it =>
    it.reason == "rateLimitExceeded" || it.reason == "userRateLimitExceeded")

/-- The wait computed before a retry (lines 232-236 of `post.js`). -/
def retryWait (e : ApiError) (attempt : Nat) : Nat :=
  if includes e.message "quotaExceeded" || e.code == some 403 then
    RATE_LIMIT_QUOTA_DELAY
  else if e.code == some 429 then
    60000
  else
    RATE_LIMIT_BASE_DELAY * 2 ^ (attempt - 1)

/-- Render `error.code` the way JS string interpolation does. -/
def codeStr : Option Nat → String
  | none => "undefined"
  | some n => toString n

/-- The distinguished error thrown when the retry budget is exhausted while
the failure is still rate-limit-classified (line 244 of `post.js`). -/
def exhaustErr (attempt : Nat) (e : ApiError) : ApiError :=
  { code := none
    errors := []
    message := "Rate limit exceeded after " ++ toString attempt ++
      " attempts: " ++ e.message ++ " (code: " ++ codeStr e.code ++ ")" }

/-- `postToBloggerWithRetry(postData, postedIds, existingTitles, attempt)`
(lines 194-249 of `post.js`).  The remote insert is an oracle `insert`
indexed by the attempt number; each call outcome is either the response
data or the thrown error. -/
def postToBloggerWithRetry (insert : Nat → Except ApiError BlogData)
    (postData : Post) (postedIds existingTitles : List String)
    (files : Files) (attempt : Nat) : RetryResult :=
  if postedIds.contains postData.title || existingTitles.contains postData.title then
    { outcome := .skipped, postedIds := postedIds, existingTitles := existingTitles
      files := files, trace := [] }
  else
    match insert attempt with
    | .ok d =>
      let postedIds' := addToSet postData.title postedIds
      let existingTitles' := addToSet postData.title existingTitles
      { outcome := .success d
        postedIds := postedIds'
        existingTitles := existingTitles'
        files := { files with postedFile := postedIds', titlesFile := existingTitles' }
        trace := [.insertCall postData.title, .savePostedFile postedIds',
                  .saveTitlesFile existingTitles'] }
    | .error e =>
      if h : isRateLimitError e = true ∧ attempt < RATE_LIMIT_MAX_RETRIES then
        let w := retryWait e attempt
        let r := postToBloggerWithRetry insert postData postedIds existingTitles files (attempt + 1)
        { r with trace := .insertCall postData.title :: .wait w :: r.trace }
      else if isRateLimitError e then
        { outcome := .thrown (exhaustErr attempt e)
          postedIds := postedIds, existingTitles := existingTitles
          files := files, trace := [.insertCall postData.title] }
      else
        { outcome := .thrown e
          postedIds := postedIds, existingTitles := existingTitles
          files := files, trace := [.insertCall postData.title] }
termination_by RATE_LIMIT_MAX_RETRIES - attempt
decreasing_by
  have := h.2
  simp [RATE_LIMIT_MAX_RETRIES] at *
  omega

/-- Number of remote insert calls recorded in a trace. -/
def countInserts (tr : List Ev) : Nat :=
  (tr.filter fun e => match e with | .insertCall _ => true | _ => false).length

/-- The sleep durations recorded in a trace, in order. -/
def waitsOf (tr : List Ev) : List Nat :=
  tr.filterMap fun e => match e with | .wait ms => some ms | _ => none

/-- The `lastProcessed` values of the successive `progress.json` writes. -/
def savedCursors (tr : List Ev) : List Int :=
  tr.filterMap fun e => match e with | .saveProgressFile p => some p.lastProcessed | _ => none

/-- The indices of the items the loop began processing, in order. -/
def beginItems (tr : List Ev) : List Nat :=
  tr.filterMap fun e => match e with | .beginItem i => some i | _ => none

/-- Spec-side definition, following the words of spec section 4.3 step 4:
a quota failure is an error indicating daily/account quota exhaustion —
HTTP 403 with a quota-related structured reason, or a message matching
`quotaExceeded` / `Daily Limit Exceeded`.  Used only to compare the spec
classification with the code classification `isRateLimitError`. -/
def specQuotaFailure (e : ApiError) : Bool :=
  (e.code == some 403 && e.errors.any (fun it =>
    it.reason == "quotaExceeded" || it.reason == "dailyLimitExceeded")) ||
  includes e.message "quotaExceeded" ||
  includes e.message "Daily Limit Exceeded"

/-- Spec-side definition, following the words of spec section 4.3 step 4:
a rate-limit failure is HTTP 429, a message matching
`User Rate Limit Exceeded` / `too many requests`, or a structured reason
`rateLimitExceeded` / `userRateLimitExceeded`. -/
def specRateLimitFailure (e : ApiError) : Bool :=
  e.code == some 429 ||
  includes e.message "User Rate Limit Exceeded" ||
  includes e.message "too many requests" ||
  e.errors.any (fun it =>
    it.reason == "rateLimitExceeded" || it.reason == "userRateLimitExceeded")

/-- The modelled message of the `TypeError` raised by
`post.title.substring(0, 50)` when the entry has no title (line 281). -/
def typeErrorMessage : String :=
  "Cannot read properties of undefined (reading substring)"

/-- The dynamic pacing delay computed from `postedIds.size` at the bottom of
the driver loop (lines 316-318 of `post.js`). -/
def pacingDelay (postedCount : Nat) : Nat :=
  if 40 ≤ postedCount ∧ postedCount < 45 then 30000
  else if 45 ≤ postedCount then 33000
  else RATE_LIMIT_BASE_DELAY

/-- Result of a whole run: the process exit code, the in-memory progress at
the end, the persisted files, the event trace, and the `terminationReason`
of the report written (when one was). -/
structure RunResult where
  exitCode : Nat
  finalProgress : Progress
  files : Files
  trace : List Ev
  reportReason : Option String
deriving Repr, DecidableEq

/-- The top-level `.catch` handler (lines 349-355): reloads the progress
cursor from `progress.json`, generates a best-effort report and exits 1. -/
def fatalAbort (files : Files) (msg : String) : RunResult :=
  let reason := "Fatal error: " ++ msg ++ " (code: undefined)"
  { exitCode := 1
    finalProgress := files.progressFile
    files := files
    trace := [.report reason]
    reportReason := some reason }

/-- The driver loop of `postToBlogger` from index `i` on (lines 279-345),
together with the finalization code after the loop (lines 331-345).  The
remote insert oracle is indexed by item index and attempt number. -/
def runFrom (posts : List RawPost) (insert : Nat → Nat → Except ApiError BlogData)
    (i : Nat) (progress : Progress) (postedIds existingTitles : List String)
    (postCountSinceLastSave : Nat) (files : Files) : RunResult :=
  if h : i < posts.length then
    let post := posts[i]
    match post.title with
    | none =>
      -- `post.title.substring(0, 50)` throws before the per-item try block;
      -- the TypeError escapes the loop and reaches the top-level handler.
      fatalAbort files typeErrorMessage
    | some t =>
      let r := postToBloggerWithRetry (insert i) ⟨t, post.content, post.labels⟩
        postedIds existingTitles files 1
      match r.outcome with
      | .thrown e =>
        let progress' : Progress :=
          { lastProcessed := progress.lastProcessed
            failed := progress.failed ++ [⟨i, t, e.message⟩] }
        let files' := { r.files with progressFile := progress' }
        let caught : List Ev := Ev.beginItem i :: r.trace ++
          [Ev.saveProgressFile progress',
           Ev.notify ("Error posting index " ++ toString i ++ " (" ++ t ++ "): " ++ e.message)]
        if includes e.message "Rate limit exceeded" then
          let reason := "Terminated due to rate limit: " ++ e.message
          { exitCode := 1
            finalProgress := progress'
            files := files'
            trace := caught ++ [Ev.report reason]
            reportReason := some reason }
        else
          let pacing : List Ev :=
            if i < posts.length - 1 then [Ev.wait (pacingDelay r.postedIds.length)] else []
          let rest := runFrom posts insert (i + 1) progress' r.postedIds r.existingTitles
            postCountSinceLastSave files'
          { rest with trace := caught ++ pacing ++ rest.trace }
      | _ =>
        -- `Success` or `Skipped`: the cursor advances to the current index.
        let progress' : Progress :=
          { lastProcessed := (i : Int), failed := progress.failed }
        let cnt := postCountSinceLastSave + 1
        let doSave : Bool := 5 ≤ cnt || i == posts.length - 1
        let files' := if doSave then { r.files with progressFile := progress' } else r.files
        let saveEvs : List Ev := if doSave then [Ev.saveProgressFile progress'] else []
        let cnt' := if doSave then 0 else cnt
        let pacing : List Ev :=
          if i < posts.length - 1 then [Ev.wait (pacingDelay r.postedIds.length)] else []
        let rest := runFrom posts insert (i + 1) progress' r.postedIds r.existingTitles cnt' files'
        { rest with trace := (Ev.beginItem i :: r.trace) ++ saveEvs ++ pacing ++ rest.trace }
  else
    -- loop finished: write the failed-posts side file when needed, report,
    -- and exit 0.
    let files' :=
      if progress.failed.length > 0 then
        { files with failedPostsFile := some progress.failed }
      else files
    let failEvs : List Ev :=
      if progress.failed.length > 0 then [Ev.saveFailedPostsFile progress.failed]
      else []
    { exitCode := 0
      finalProgress := progress
      files := files'
      trace := failEvs ++ [Ev.report "Completed normally"]
      reportReason := some "Completed normally" }
termination_by posts.length - i
decreasing_by all_goals omega

/-- The main function `postToBlogger` (lines 252-346): loads state from the
persisted files, uses the cached existing titles when the cache is
non-empty and otherwise the remotely listed titles (which are then cached),
and runs the loop from `progress.lastProcessed + 1`. -/
def postToBlogger (posts : List RawPost) (insert : Nat → Nat → Except ApiError BlogData)
    (remoteTitles : List String) (files : Files) : RunResult :=
  let progress := files.progressFile
  let postedIds := files.postedFile
  let existingTitles :=
    if 0 < files.titlesFile.length then files.titlesFile else remoteTitles
  let files₁ :=
    if 0 < files.titlesFile.length then files
    else { files with titlesFile := remoteTitles }
  let preTrace : List Ev :=
    if 0 < files.titlesFile.length then [] else [Ev.saveTitlesFile remoteTitles]
  let r := runFrom posts insert (progress.lastProcessed + 1).toNat progress
    postedIds existingTitles 0 files₁
  { r with trace := preTrace ++ r.trace }

/-! ## Helper lemmas -/

@[simp] lemma savedCursors_nil : savedCursors [] = [] := rfl

@[simp] lemma savedCursors_cons_begin (i : Nat) (l : List Ev) :
    savedCursors (.beginItem i :: l) = savedCursors l := rfl

@[simp] lemma savedCursors_cons_insert (s : String) (l : List Ev) :
    savedCursors (.insertCall s :: l) = savedCursors l := rfl

@[simp] lemma savedCursors_cons_wait (w : Nat) (l : List Ev) :
    savedCursors (.wait w :: l) = savedCursors l := rfl

@[simp] lemma savedCursors_cons_posted (ids : List String) (l : List Ev) :
    savedCursors (.savePostedFile ids :: l) = savedCursors l := rfl

@[simp] lemma savedCursors_cons_titles (ts : List String) (l : List Ev) :
    savedCursors (.saveTitlesFile ts :: l) = savedCursors l := rfl

@[simp] lemma savedCursors_cons_notify (m : String) (l : List Ev) :
    savedCursors (.notify m :: l) = savedCursors l := rfl

@[simp] lemma savedCursors_cons_failed (f : List FailedEntry) (l : List Ev) :
    savedCursors (.saveFailedPostsFile f :: l) = savedCursors l := rfl

@[simp] lemma savedCursors_cons_report (m : String) (l : List Ev) :
    savedCursors (.report m :: l) = savedCursors l := rfl

@[simp] lemma savedCursors_cons_progress (p : Progress) (l : List Ev) :
    savedCursors (.saveProgressFile p :: l) = p.lastProcessed :: savedCursors l := rfl

@[simp] lemma savedCursors_append (a b : List Ev) :
    savedCursors (a ++ b) = savedCursors a ++ savedCursors b := by
  simp [savedCursors]

@[simp] lemma savedCursors_ite (c : Prop) [Decidable c] (a b : List Ev) :
    savedCursors (if c then a else b) = if c then savedCursors a else savedCursors b := by
  split <;> rfl

/-- The retry executor issues at most `k + 1` insert calls when its
remaining budget `MAX_RETRIES - attempt` is at most `k`. -/
lemma retry_countInserts_le (insert : Nat → Except ApiError BlogData) (p : Post) :
    ∀ (k : Nat) (pi et : List String) (f : Files) (attempt : Nat),
      RATE_LIMIT_MAX_RETRIES - attempt ≤ k →
      countInserts (postToBloggerWithRetry insert p pi et f attempt).trace ≤ k + 1 := by
  intro k
  induction k with
  | zero =>
    intro pi et f attempt hk
    rw [postToBloggerWithRetry.eq_def]
    split
    · simp [countInserts]
    · split
      · simp [countInserts]
      · split
        · next h => exact absurd h.2 (by omega)
        · split <;> simp [countInserts]
  | succ n ih =>
    intro pi et f attempt hk
    rw [postToBloggerWithRetry.eq_def]
    split
    · simp [countInserts]
    · split
      · simp [countInserts]
      · split
        · next h =>
          have hrec := ih pi et f (attempt + 1) (by omega)
          simp only [countInserts, List.filter, List.length_cons] at hrec ⊢
          omega
        · split <;> simp [countInserts]

/-- The retry executor never writes `progress.json`: its trace contains no
progress-cursor save events. -/
lemma retry_savedCursors_nil (insert : Nat → Except ApiError BlogData) (p : Post) :
    ∀ (k : Nat) (pi et : List String) (f : Files) (attempt : Nat),
      RATE_LIMIT_MAX_RETRIES - attempt ≤ k →
      savedCursors (postToBloggerWithRetry insert p pi et f attempt).trace = [] := by
  intro k
  induction k with
  | zero =>
    intro pi et f attempt hk
    rw [postToBloggerWithRetry.eq_def]
    split
    · simp
    · split
      · simp
      · split
        · next h => exact absurd h.2 (by omega)
        · split <;> simp
  | succ n ih =>
    intro pi et f attempt hk
    rw [postToBloggerWithRetry.eq_def]
    split
    · simp
    · split
      · simp
      · split
        · next h =>
          have hrec := ih pi et f (attempt + 1) (by omega)
          simp [hrec]
        · split <;> simp

/-- Weakening the head of a `≤`-chain. -/
lemma chain_cons_weaken {a b : Int} {l : List Int} (hab : a ≤ b)
    (h : List.Chain' (· ≤ ·) (b :: l)) : List.Chain' (· ≤ ·) (a :: l) := by
  cases l with
  | nil => simp
  | cons c l =>
    rw [List.chain'_cons] at h ⊢
    exact ⟨le_trans hab h.1, h.2⟩

/-- One driver-loop iteration whose publish attempt throws an error that is
not rate-limit exhaustion: the failed entry is appended, the cursor file is
written immediately with the cursor unchanged, a notification is sent, the
pacing delay elapses (except after the last item) and the loop continues at
the next index. -/
lemma runFrom_thrown_step (posts : List RawPost) (insert : Nat → Nat → Except ApiError BlogData)
    (i : Nat) (progress : Progress) (pi et : List String) (cnt : Nat) (files : Files)
    (t : String) (e : ApiError) (hi : i < posts.length)
    (ht : posts[i].title = some t)
    (hr : (postToBloggerWithRetry (insert i)
      ⟨t, posts[i].content, posts[i].labels⟩ pi et files 1).outcome
      = .thrown e)
    (hnr : includes e.message "Rate limit exceeded" = false) :
    runFrom posts insert i progress pi et cnt files =
      (let r := postToBloggerWithRetry (insert i)
        ⟨t, posts[i].content, posts[i].labels⟩ pi et files 1
      let pfail : Progress := ⟨progress.lastProcessed, progress.failed ++ [⟨i, t, e.message⟩]⟩
      let rest := runFrom posts insert (i + 1) pfail r.postedIds r.existingTitles cnt
        { r.files with progressFile := pfail }
      { rest with trace :=
          Ev.beginItem i :: r.trace ++
            [Ev.saveProgressFile pfail,
             Ev.notify ("Error posting index " ++ toString i ++ " (" ++ t ++ "): " ++ e.message)] ++
          (if i < posts.length - 1 then [Ev.wait (pacingDelay r.postedIds.length)] else []) ++
          rest.trace }) := by
  conv_lhs => rw [runFrom.eq_def]
  rw [dif_pos hi]
  simp only [ht, hr, hnr]
  simp

/-- One driver-loop iteration on an entry without a `title` string: the
header log line throws before the per-item try block, and the run aborts
through the top-level fatal handler. -/
lemma runFrom_missing_title (posts : List RawPost) (insert : Nat → Nat → Except ApiError BlogData)
    (i : Nat) (progress : Progress) (pi et : List String) (cnt : Nat) (files : Files)
    (hi : i < posts.length) (ht : posts[i].title = none) :
    runFrom posts insert i progress pi et cnt files = fatalAbort files typeErrorMessage := by
  conv_lhs => rw [runFrom.eq_def]
  rw [dif_pos hi]
  simp only [ht]

/-- The cursor values successively persisted to `progress.json` by the
driver loop form a non-decreasing chain, starting no lower than the
in-memory cursor at loop entry. -/
lemma runFrom_cursor_chain (posts : List RawPost) (insert : Nat → Nat → Except ApiError BlogData) :
    ∀ (k i : Nat) (progress : Progress) (pi et : List String) (cnt : Nat) (files : Files),
      posts.length - i ≤ k → progress.lastProcessed ≤ (i : Int) →
      List.Chain' (· ≤ ·)
        (progress.lastProcessed ::
          savedCursors (runFrom posts insert i progress pi et cnt files).trace) := by
  intro k
  induction k with
  | zero =>
    intro i progress pi et cnt files hk hle
    rw [runFrom.eq_def, dif_neg (by omega)]
    simp
  | succ n ih =>
    intro i progress pi et cnt files hk hle
    by_cases hi : i < posts.length
    · rw [runFrom.eq_def, dif_pos hi]
      cases ht : posts[i].title with
      | none =>
        simp only [ht]
        simp [fatalAbort]
      | some t =>
        simp only [ht]
        have hnil := retry_savedCursors_nil (insert i)
          ⟨t, posts[i].content, posts[i].labels⟩
          RATE_LIMIT_MAX_RETRIES pi et files 1 (by omega)
        split
        · -- thrown
          rename_i x e heq
          split
          · -- rate-limit exhaustion: job terminates after one more save
            simp [hnil]
          · -- item-local failure: cursor unchanged, loop continues
            simp only [List.cons_append, savedCursors_cons_begin, savedCursors_append,
              hnil, List.nil_append, savedCursors_cons_progress, savedCursors_cons_notify,
              savedCursors_nil, savedCursors_ite, savedCursors_cons_wait, ite_self,
              List.singleton_append, List.append_nil]
            rw [List.chain'_cons]
            refine ⟨le_refl _, ?_⟩
            exact ih (i + 1)
              ⟨progress.lastProcessed, progress.failed ++ [⟨i, t, e.message⟩]⟩
              _ _ cnt _ (by omega) (le_trans hle (by push_cast; omega))
        · -- success or skipped: cursor advances to the current index
          simp only [List.cons_append, savedCursors_cons_begin, savedCursors_append,
            hnil, List.nil_append, savedCursors_ite, savedCursors_cons_progress,
            savedCursors_cons_wait, savedCursors_nil, ite_self,
            List.singleton_append, List.append_nil]
          split
          · -- the cursor is persisted this iteration
            simp only [List.singleton_append]
            rw [List.chain'_cons]
            refine ⟨hle, ?_⟩
            exact ih (i + 1) ⟨(i : Int), progress.failed⟩ _ _ _ _
              (by omega) (by push_cast; omega)
          · -- no persist this iteration
            refine chain_cons_weaken hle ?_
            exact ih (i + 1) ⟨(i : Int), progress.failed⟩ _ _ _ _
              (by omega) (by push_cast; omega)
    · rw [runFrom.eq_def, dif_neg hi]
      simp
/-! ## Claims -/

/-- C1: a candidate post whose title is already in the posted-identifier
set or the existing-title cache is skipped immediately: the retry executor
returns `Skipped` with no insert call, no waits, unchanged in-memory sets
and unchanged persisted files; and the Scenario B run — input
`[{title := "X"}]` with `posted_ids.json` already containing `"X"` — makes
zero insert calls and exits with code 0. -/
theorem c1_duplicate_skip_no_call_no_mutation :
    (∀ (ins : Nat → Except ApiError BlogData) (p : Post) (pids ets : List String)
       (files : Files) (attempt : Nat),
        (pids.contains p.title || ets.contains p.title) = true →
        postToBloggerWithRetry ins p pids ets files attempt =
          ⟨.skipped, pids, ets, files, []⟩) ∧
    (∀ ins : Nat → Nat → Except ApiError BlogData,
        countInserts (postToBlogger [⟨some "X", "c", []⟩] ins []
          ⟨⟨-1, []⟩, ["X"], ["Old"], none⟩).trace = 0 ∧
        (postToBlogger [⟨some "X", "c", []⟩] ins []
          ⟨⟨-1, []⟩, ["X"], ["Old"], none⟩).exitCode = 0) := by
  constructor
  · intro ins p pids ets files attempt h
    rw [postToBloggerWithRetry.eq_def, if_pos h]
  · intro ins
    constructor <;>
      simp +decide [postToBlogger, runFrom, postToBloggerWithRetry, countInserts,
        pacingDelay, RATE_LIMIT_BASE_DELAY]

/-- C1 witness: the skip equation applied to the concrete Scenario B
state. -/
theorem c1_witness :
    postToBloggerWithRetry (fun _ => .ok ⟨"u", "i"⟩) ⟨"X", "c", []⟩ ["X"] ["Old"]
      ⟨⟨-1, []⟩, ["X"], ["Old"], none⟩ 1 =
      ⟨.skipped, ["X"], ["Old"], ⟨⟨-1, []⟩, ["X"], ["Old"], none⟩, []⟩ :=
  c1_duplicate_skip_no_call_no_mutation.1 _ _ _ _ _ _ (by decide)

/-- C3: the retry executor issues at most `MAX_RETRIES = 5` insert
attempts for a single item, whatever the sequence of insert outcomes. -/
theorem c3_retry_attempt_bound (ins : Nat → Except ApiError BlogData) (p : Post)
    (pids ets : List String) (files : Files) :
    countInserts (postToBloggerWithRetry ins p pids ets files 1).trace ≤
      RATE_LIMIT_MAX_RETRIES :=
  le_trans
    (retry_countInserts_le ins p (RATE_LIMIT_MAX_RETRIES - 1) pids ets files 1 (by decide))
    (by decide)

/-- C2: with the remote insert always failing with a quota-exceeded error,
the retry executor performs exactly `MAX_RETRIES = 5` insert attempts and
then the run terminates as a whole: a report whose termination reason
contains "rate limit" is written, the process exits with code 1, and the
remaining item of the batch is never begun. -/
theorem c2_rate_limit_exhaustion_terminates_job :
    countInserts (postToBlogger [⟨some "T", "t", []⟩, ⟨some "U", "u", []⟩]
      (fun _ _ => .error ⟨some 403, "quotaExceeded", []⟩) []
      ⟨⟨-1, []⟩, [], ["Old"], none⟩).trace = RATE_LIMIT_MAX_RETRIES ∧
    (postToBlogger [⟨some "T", "t", []⟩, ⟨some "U", "u", []⟩]
      (fun _ _ => .error ⟨some 403, "quotaExceeded", []⟩) []
      ⟨⟨-1, []⟩, [], ["Old"], none⟩).exitCode = 1 ∧
    beginItems (postToBlogger [⟨some "T", "t", []⟩, ⟨some "U", "u", []⟩]
      (fun _ _ => .error ⟨some 403, "quotaExceeded", []⟩) []
      ⟨⟨-1, []⟩, [], ["Old"], none⟩).trace = [0] ∧
    (postToBlogger [⟨some "T", "t", []⟩, ⟨some "U", "u", []⟩]
      (fun _ _ => .error ⟨some 403, "quotaExceeded", []⟩) []
      ⟨⟨-1, []⟩, [], ["Old"], none⟩).reportReason =
      some ("Terminated due to rate limit: Rate limit exceeded after 5 attempts: " ++
        "quotaExceeded (code: 403)") ∧
    includes ("Terminated due to rate limit: Rate limit exceeded after 5 attempts: " ++
        "quotaExceeded (code: 403)") "rate limit" = true := by
  refine ⟨?_, ?_, ?_, ?_, by decide⟩ <;>
    simp +decide [postToBlogger, runFrom, postToBloggerWithRetry, countInserts, beginItems,
      pacingDelay, retryWait, exhaustErr, codeStr, isRateLimitError]

/-- C4 counterexample: an error whose message matches the
`Daily Limit Exceeded` pattern — a quota failure by the spec's own
classification — does not get the fixed 3600000 ms quota cooldown: the
executed waits follow the exponential backoff 10000 * 2^(a-1). -/
theorem c4_counterexample :
    specQuotaFailure ⟨none, "Daily Limit Exceeded", []⟩ = true ∧
    isRateLimitError ⟨none, "Daily Limit Exceeded", []⟩ = true ∧
    retryWait ⟨none, "Daily Limit Exceeded", []⟩ 1 = 10000 ∧
    RATE_LIMIT_QUOTA_DELAY = 3600000 ∧
    waitsOf (postToBloggerWithRetry (fun _ => .error ⟨none, "Daily Limit Exceeded", []⟩)
      ⟨"T", "t", []⟩ [] [] ⟨⟨-1, []⟩, [], [], none⟩ 1).trace =
      [10000, 20000, 40000, 80000] ∧
    (10000 : Nat) ≠ RATE_LIMIT_QUOTA_DELAY := by
  refine ⟨by decide, by decide, by decide, rfl, ?_, by decide⟩
  simp +decide [postToBloggerWithRetry, waitsOf, isRateLimitError, retryWait,
    RATE_LIMIT_MAX_RETRIES, RATE_LIMIT_BASE_DELAY]

/-- C4 amended: when attempt `a < MAX_RETRIES` fails with a
rate-limit-classified error, the executor sleeps for `retryWait e a` — the
fixed 3600000 ms cooldown when the message contains `quotaExceeded` or the
HTTP code is 403, the fixed 60000 ms cooldown when the code is 429, and
otherwise the exponential backoff 10000 * 2^(a-1) (in particular a
`Daily Limit Exceeded` message without code 403 takes the backoff, not the
quota cooldown) — and then retries with attempt number `a + 1`. -/
theorem c4_amended_wait_schedule :
    ∀ (ins : Nat → Except ApiError BlogData) (p : Post) (pids ets : List String)
      (files : Files) (a : Nat) (e : ApiError),
      (pids.contains p.title || ets.contains p.title) = false →
      ins a = .error e →
      isRateLimitError e = true →
      a < RATE_LIMIT_MAX_RETRIES →
      postToBloggerWithRetry ins p pids ets files a =
        { postToBloggerWithRetry ins p pids ets files (a + 1) with
          trace := .insertCall p.title :: .wait (retryWait e a) ::
            (postToBloggerWithRetry ins p pids ets files (a + 1)).trace } ∧
      retryWait e a =
        (if includes e.message "quotaExceeded" || e.code == some 403 then 3600000
         else if e.code == some 429 then 60000
         else 10000 * 2 ^ (a - 1)) := by
  intro ins p pids ets files a e hskip hins hrl ha
  refine ⟨?_, rfl⟩
  conv_lhs => rw [postToBloggerWithRetry.eq_def]
  rw [hskip]
  simp only [Bool.false_eq_true, if_false, hins]
  rw [dif_pos ⟨hrl, ha⟩]

/-- C4 witness: the amended wait schedule applied to a generic
`too many requests` failure at attempt 2: backoff 10000 * 2 = 20000 ms. -/
theorem c4_witness :
    postToBloggerWithRetry (fun _ => .error ⟨none, "too many requests", []⟩)
      ⟨"T", "t", []⟩ [] [] ⟨⟨-1, []⟩, [], [], none⟩ 2 =
      { postToBloggerWithRetry (fun _ => .error ⟨none, "too many requests", []⟩)
          ⟨"T", "t", []⟩ [] [] ⟨⟨-1, []⟩, [], [], none⟩ 3 with
        trace := .insertCall "T" :: .wait (retryWait ⟨none, "too many requests", []⟩ 2) ::
          (postToBloggerWithRetry (fun _ => .error ⟨none, "too many requests", []⟩)
            ⟨"T", "t", []⟩ [] [] ⟨⟨-1, []⟩, [], [], none⟩ 3).trace } ∧
    retryWait ⟨none, "too many requests", []⟩ 2 =
      (if includes "too many requests" "quotaExceeded" || (none : Option Nat) == some 403
       then 3600000
       else if (none : Option Nat) == some 429 then 60000
       else 10000 * 2 ^ (2 - 1)) :=
  c4_amended_wait_schedule _ _ _ _ _ 2 _ (by decide) rfl (by decide) (by decide)

/-- C5 counterexample: a bare HTTP 403 error without any quota-related
reason or message pattern — fatal by the spec's classification — is not
propagated immediately: the code classifies any 403 as rate-limited and
retries it five times with the one-hour quota cooldown. -/
theorem c5_counterexample :
    specQuotaFailure ⟨some 403, "Forbidden", []⟩ = false ∧
    specRateLimitFailure ⟨some 403, "Forbidden", []⟩ = false ∧
    countInserts (postToBloggerWithRetry (fun _ => .error ⟨some 403, "Forbidden", []⟩)
      ⟨"T", "t", []⟩ [] [] ⟨⟨-1, []⟩, [], [], none⟩ 1).trace = 5 ∧
    waitsOf (postToBloggerWithRetry (fun _ => .error ⟨some 403, "Forbidden", []⟩)
      ⟨"T", "t", []⟩ [] [] ⟨⟨-1, []⟩, [], [], none⟩ 1).trace =
      [3600000, 3600000, 3600000, 3600000] := by
  refine ⟨by decide, by decide, ?_, ?_⟩ <;>
    simp +decide [postToBloggerWithRetry, waitsOf, countInserts, isRateLimitError,
      retryWait, RATE_LIMIT_MAX_RETRIES, RATE_LIMIT_QUOTA_DELAY]

/-- C5 amended: a publish failure that the code's `isRateLimitError`
classification rejects (note: any HTTP 403 is accepted by it, whatever the
reason) is fatal: it is rethrown at once with exactly one insert call, no
backoff wait, and unchanged sets and files. -/
theorem c5_amended_fatal_propagates :
    ∀ (ins : Nat → Except ApiError BlogData) (p : Post) (pids ets : List String)
      (files : Files) (a : Nat) (e : ApiError),
      (pids.contains p.title || ets.contains p.title) = false →
      ins a = .error e →
      isRateLimitError e = false →
      postToBloggerWithRetry ins p pids ets files a =
        ⟨.thrown e, pids, ets, files, [.insertCall p.title]⟩ := by
  intro ins p pids ets files a e hskip hins hrl
  conv_lhs => rw [postToBloggerWithRetry.eq_def]
  rw [hskip]
  simp only [Bool.false_eq_true, if_false, hins]
  rw [dif_neg (by simp [hrl])]
  rw [if_neg (by simp [hrl])]

/-- C5 witness: the fatal-propagation equation applied to a concrete
HTTP 500 failure. -/
theorem c5_witness :
    postToBloggerWithRetry (fun _ => .error ⟨some 500, "Internal error", []⟩)
      ⟨"T", "t", []⟩ [] [] ⟨⟨-1, []⟩, [], [], none⟩ 1 =
      ⟨.thrown ⟨some 500, "Internal error", []⟩, [], [],
        ⟨⟨-1, []⟩, [], [], none⟩, [.insertCall "T"]⟩ :=
  c5_amended_fatal_propagates _ _ _ _ _ 1 _ (by decide) rfl (by decide)

/-- C6: within a run the persisted progress cursor only increases — the
successively saved `lastProcessed` values form a non-decreasing chain from
the loaded cursor — and a resumed run starts at `lastProcessed + 1`: with a
prior run having left `lastProcessed = 1` out of 5 items, the resumed run
begins exactly items 2, 3 and 4. -/
theorem c6_cursor_monotone_and_resume :
    (∀ (posts : List RawPost) (ins : Nat → Nat → Except ApiError BlogData)
       (remote : List String) (files : Files),
        List.Chain' (· ≤ ·) (files.progressFile.lastProcessed ::
          savedCursors (postToBlogger posts ins remote files).trace)) ∧
    beginItems (postToBlogger
      [⟨some "P0", "c0", []⟩, ⟨some "P1", "c1", []⟩, ⟨some "P2", "c2", []⟩,
       ⟨some "P3", "c3", []⟩, ⟨some "P4", "c4", []⟩]
      (fun _ _ => .ok ⟨"url", "id"⟩) [] ⟨⟨1, []⟩, [], ["Old"], none⟩).trace = [2, 3, 4] := by
  constructor
  · intro posts ins remote files
    simp only [postToBlogger, savedCursors_append, savedCursors_ite, savedCursors_nil,
      savedCursors_cons_titles, ite_self, List.nil_append]
    exact runFrom_cursor_chain posts ins posts.length _ files.progressFile _ _ 0 _
      (by omega) (by omega)
  · simp +decide [postToBlogger, runFrom, postToBloggerWithRetry, beginItems,
      pacingDelay, addToSet]

/-- C7: the inter-item pacing delay is the three-tier step function of the
posted count — 10000 ms below 40, 30000 ms from 40 to 44, 33000 ms from 45
— hence non-decreasing, and it is applied after a successful attempt and
before the next item, with no trailing wait after the last item: the
two-item run shows exactly one wait, of `pacingDelay 1`, between the
items. -/
theorem c7_pacing_step_function :
    (∀ n m : Nat, n ≤ m → pacingDelay n ≤ pacingDelay m) ∧
    pacingDelay 0 = 10000 ∧ pacingDelay 39 = 10000 ∧ pacingDelay 40 = 30000 ∧
    pacingDelay 44 = 30000 ∧ pacingDelay 45 = 33000 ∧
    (postToBlogger [⟨some "A", "a", []⟩, ⟨some "B", "b", []⟩]
      (fun _ _ => .ok ⟨"url", "id"⟩) [] ⟨⟨-1, []⟩, [], ["Old"], none⟩).trace =
      [.beginItem 0, .insertCall "A", .savePostedFile ["A"], .saveTitlesFile ["Old", "A"],
       .wait (pacingDelay 1),
       .beginItem 1, .insertCall "B", .savePostedFile ["A", "B"],
       .saveTitlesFile ["Old", "A", "B"], .saveProgressFile ⟨1, []⟩,
       .report "Completed normally"] := by
  refine ⟨?_, by decide, by decide, by decide, by decide, by decide, ?_⟩
  · intro n m h
    simp only [pacingDelay, RATE_LIMIT_BASE_DELAY]
    split_ifs <;> omega
  · simp +decide [postToBlogger, runFrom, postToBloggerWithRetry, pacingDelay, addToSet,
      RATE_LIMIT_BASE_DELAY]

/-- C7 witness: pacing monotonicity applied at the 40 and 45 thresholds. -/
theorem c7_witness : pacingDelay 40 ≤ pacingDelay 45 :=
  c7_pacing_step_function.1 40 45 (by decide)

/-- C8: a per-item failure that is not rate-limit exhaustion is
item-local: the `{index, title, error}` entry is appended to the failed
list, `progress.json` is written immediately, a notification is sent and
the loop continues with the next index; and in the Scenario D run — three
items of which the middle one fails with a non-rate-limit error — exactly
one failed entry (for index 1) is recorded, items 1 and 3 succeed,
`failed_posts.json` is written and the exit code is 0. -/
theorem c8_item_local_failure :
    (∀ (posts : List RawPost) (ins : Nat → Nat → Except ApiError BlogData) (i : Nat)
       (progress : Progress) (pids ets : List String) (cnt : Nat) (files : Files)
       (t : String) (e : ApiError) (hi : i < posts.length),
        posts[i].title = some t →
        (postToBloggerWithRetry (ins i) ⟨t, posts[i].content, posts[i].labels⟩
          pids ets files 1).outcome = .thrown e →
        includes e.message "Rate limit exceeded" = false →
        runFrom posts ins i progress pids ets cnt files =
          (let r := postToBloggerWithRetry (ins i)
            ⟨t, posts[i].content, posts[i].labels⟩ pids ets files 1
          let pfail : Progress := ⟨progress.lastProcessed,
            progress.failed ++ [⟨i, t, e.message⟩]⟩
          let rest := runFrom posts ins (i + 1) pfail r.postedIds r.existingTitles cnt
            { r.files with progressFile := pfail }
          { rest with trace :=
              Ev.beginItem i :: r.trace ++
                [Ev.saveProgressFile pfail,
                 Ev.notify ("Error posting index " ++ toString i ++ " (" ++ t ++ "): " ++
                   e.message)] ++
              (if i < posts.length - 1 then [Ev.wait (pacingDelay r.postedIds.length)]
               else []) ++
              rest.trace })) ∧
    (postToBlogger [⟨some "A", "a", []⟩, ⟨some "B", "b", []⟩, ⟨some "C", "c", []⟩]
      (fun i _ => if i == 1 then .error ⟨some 500, "Internal error", []⟩
        else .ok ⟨"url", "id"⟩) [] ⟨⟨-1, []⟩, [], ["Old"], none⟩).exitCode = 0 ∧
    (postToBlogger [⟨some "A", "a", []⟩, ⟨some "B", "b", []⟩, ⟨some "C", "c", []⟩]
      (fun i _ => if i == 1 then .error ⟨some 500, "Internal error", []⟩
        else .ok ⟨"url", "id"⟩) [] ⟨⟨-1, []⟩, [], ["Old"], none⟩).finalProgress.failed =
      [⟨1, "B", "Internal error"⟩] ∧
    (postToBlogger [⟨some "A", "a", []⟩, ⟨some "B", "b", []⟩, ⟨some "C", "c", []⟩]
      (fun i _ => if i == 1 then .error ⟨some 500, "Internal error", []⟩
        else .ok ⟨"url", "id"⟩) [] ⟨⟨-1, []⟩, [], ["Old"], none⟩).files.failedPostsFile =
      some [⟨1, "B", "Internal error"⟩] ∧
    (postToBlogger [⟨some "A", "a", []⟩, ⟨some "B", "b", []⟩, ⟨some "C", "c", []⟩]
      (fun i _ => if i == 1 then .error ⟨some 500, "Internal error", []⟩
        else .ok ⟨"url", "id"⟩) [] ⟨⟨-1, []⟩, [], ["Old"], none⟩).trace =
      [.beginItem 0, .insertCall "A", .savePostedFile ["A"], .saveTitlesFile ["Old", "A"],
       .wait 10000,
       .beginItem 1, .insertCall "B",
       .saveProgressFile ⟨0, [⟨1, "B", "Internal error"⟩]⟩,
       .notify "Error posting index 1 (B): Internal error", .wait 10000,
       .beginItem 2, .insertCall "C", .savePostedFile ["A", "C"],
       .saveTitlesFile ["Old", "A", "C"],
       .saveProgressFile ⟨2, [⟨1, "B", "Internal error"⟩]⟩,
       .saveFailedPostsFile [⟨1, "B", "Internal error"⟩],
       .report "Completed normally"] := by
  refine ⟨?_, ?_, ?_, ?_, ?_⟩
  · intro posts ins i progress pids ets cnt files t e hi ht hr hnr
    exact runFrom_thrown_step posts ins i progress pids ets cnt files t e hi ht hr hnr
  all_goals
    simp +decide [postToBlogger, runFrom, postToBloggerWithRetry, pacingDelay, addToSet,
      isRateLimitError, RATE_LIMIT_BASE_DELAY, RATE_LIMIT_MAX_RETRIES]

/-- C8 witness: the item-local-failure step equation applied to the failing
middle item of the Scenario D run. -/
theorem c8_witness :
    runFrom [⟨some "A", "a", []⟩, ⟨some "B", "b", []⟩, ⟨some "C", "c", []⟩]
      (fun i _ => if i == 1 then .error ⟨some 500, "Internal error", []⟩
        else .ok ⟨"url", "id"⟩)
      1 ⟨0, []⟩ ["A"] ["Old", "A"] 1 ⟨⟨0, []⟩, ["A"], ["Old", "A"], none⟩ =
      (let r := postToBloggerWithRetry
        ((fun i _ => if i == 1 then .error ⟨some 500, "Internal error", []⟩
          else .ok ⟨"url", "id"⟩) 1)
        ⟨"B", "b", []⟩ ["A"] ["Old", "A"] ⟨⟨0, []⟩, ["A"], ["Old", "A"], none⟩ 1
      let pfail : Progress := ⟨0, [⟨1, "B", "Internal error"⟩]⟩
      let rest := runFrom [⟨some "A", "a", []⟩, ⟨some "B", "b", []⟩, ⟨some "C", "c", []⟩]
        (fun i _ => if i == 1 then .error ⟨some 500, "Internal error", []⟩
          else .ok ⟨"url", "id"⟩)
        2 pfail r.postedIds r.existingTitles 1 { r.files with progressFile := pfail }
      { rest with trace :=
          Ev.beginItem 1 :: r.trace ++
            [Ev.saveProgressFile pfail,
             Ev.notify "Error posting index 1 (B): Internal error"] ++
          [Ev.wait (pacingDelay r.postedIds.length)] ++ rest.trace }) :=
  c8_item_local_failure.1
    [⟨some "A", "a", []⟩, ⟨some "B", "b", []⟩, ⟨some "C", "c", []⟩]
    (fun i _ => if i == 1 then .error ⟨some 500, "Internal error", []⟩
      else .ok ⟨"url", "id"⟩)
    1 ⟨0, []⟩ ["A"] ["Old", "A"] 1 ⟨⟨0, []⟩, ["A"], ["Old", "A"], none⟩
    "B" ⟨some 500, "Internal error", []⟩ (by decide) rfl
    (by simp +decide [postToBloggerWithRetry, isRateLimitError]) (by decide)

/-- C9: on the failure path of an item the in-memory cursor is left
unchanged — the `progress.json` write performed by the catch branch records
the old `lastProcessed` — and consequently a run whose trailing items all
failed persists the cursor of the last successful item, so the resumed run
re-attempts every index after it, including the previously failed ones. -/
theorem c9_cursor_unchanged_on_failure :
    (∀ (posts : List RawPost) (ins : Nat → Nat → Except ApiError BlogData) (i : Nat)
       (progress : Progress) (pids ets : List String) (cnt : Nat) (files : Files)
       (t : String) (e : ApiError) (hi : i < posts.length),
        posts[i].title = some t →
        (postToBloggerWithRetry (ins i) ⟨t, posts[i].content, posts[i].labels⟩
          pids ets files 1).outcome = .thrown e →
        (savedCursors (runFrom posts ins i progress pids ets cnt files).trace).head? =
          some progress.lastProcessed) ∧
    (postToBlogger [⟨some "A", "a", []⟩, ⟨some "B", "b", []⟩, ⟨some "C", "c", []⟩]
      (fun i _ => if i == 0 then .ok ⟨"url", "id"⟩
        else .error ⟨some 500, "Internal error", []⟩) []
      ⟨⟨-1, []⟩, [], ["Old"], none⟩).files =
      ⟨⟨0, [⟨1, "B", "Internal error"⟩, ⟨2, "C", "Internal error"⟩]⟩, ["A"], ["Old", "A"],
        some [⟨1, "B", "Internal error"⟩, ⟨2, "C", "Internal error"⟩]⟩ ∧
    beginItems (postToBlogger [⟨some "A", "a", []⟩, ⟨some "B", "b", []⟩, ⟨some "C", "c", []⟩]
      (fun _ _ => .ok ⟨"url2", "id2"⟩) []
      ⟨⟨0, [⟨1, "B", "Internal error"⟩, ⟨2, "C", "Internal error"⟩]⟩, ["A"], ["Old", "A"],
        some [⟨1, "B", "Internal error"⟩, ⟨2, "C", "Internal error"⟩]⟩).trace = [1, 2] ∧
    (postToBlogger [⟨some "A", "a", []⟩, ⟨some "B", "b", []⟩, ⟨some "C", "c", []⟩]
      (fun _ _ => .ok ⟨"url2", "id2"⟩) []
      ⟨⟨0, [⟨1, "B", "Internal error"⟩, ⟨2, "C", "Internal error"⟩]⟩, ["A"], ["Old", "A"],
        some [⟨1, "B", "Internal error"⟩, ⟨2, "C", "Internal error"⟩]⟩).files.postedFile =
      ["A", "B", "C"] ∧
    (postToBlogger [⟨some "A", "a", []⟩, ⟨some "B", "b", []⟩, ⟨some "C", "c", []⟩]
      (fun _ _ => .ok ⟨"url2", "id2"⟩) []
      ⟨⟨0, [⟨1, "B", "Internal error"⟩, ⟨2, "C", "Internal error"⟩]⟩, ["A"], ["Old", "A"],
        some [⟨1, "B", "Internal error"⟩, ⟨2, "C", "Internal error"⟩]⟩).exitCode = 0 := by
  refine ⟨?_, ?_, ?_, ?_, ?_⟩
  · intro posts ins i progress pids ets cnt files t e hi ht hr
    rw [runFrom.eq_def, dif_pos hi]
    simp only [ht, hr]
    have hnil := retry_savedCursors_nil (ins i)
      ⟨t, posts[i].content, posts[i].labels⟩
      RATE_LIMIT_MAX_RETRIES pids ets files 1 (by omega)
    split <;> simp [hnil]
  all_goals
    simp +decide [postToBlogger, runFrom, postToBloggerWithRetry, pacingDelay, addToSet,
      isRateLimitError, beginItems, RATE_LIMIT_BASE_DELAY, RATE_LIMIT_MAX_RETRIES]

/-- C9 witness: the unchanged-cursor property applied to a one-item run
whose item fails, starting from cursor 7. -/
theorem c9_witness :
    (savedCursors (runFrom [⟨some "B", "b", []⟩]
      (fun _ _ => .error ⟨some 500, "Internal error", []⟩)
      0 ⟨7, []⟩ [] [] 0 ⟨⟨7, []⟩, [], [], none⟩).trace).head? = some 7 :=
  c9_cursor_unchanged_on_failure.1 [⟨some "B", "b", []⟩]
    (fun _ _ => .error ⟨some 500, "Internal error", []⟩)
    0 ⟨7, []⟩ [] [] 0 ⟨⟨7, []⟩, [], [], none⟩ "B" ⟨some 500, "Internal error", []⟩
    (by decide) rfl (by simp +decide [postToBloggerWithRetry, isRateLimitError])

/-- C10: an entry of `posts.json` without a title string makes the header
log line throw before the per-item try block: the whole job aborts through
the top-level fatal handler — exit code 1, best-effort report — without
recording an item-local failed entry or touching the persisted files. -/
theorem c10_missing_title_aborts_run :
    (∀ (posts : List RawPost) (ins : Nat → Nat → Except ApiError BlogData) (i : Nat)
       (progress : Progress) (pids ets : List String) (cnt : Nat) (files : Files)
       (hi : i < posts.length),
        posts[i].title = none →
        runFrom posts ins i progress pids ets cnt files =
          fatalAbort files typeErrorMessage ∧
        (runFrom posts ins i progress pids ets cnt files).exitCode = 1 ∧
        (runFrom posts ins i progress pids ets cnt files).files = files ∧
        (runFrom posts ins i progress pids ets cnt files).reportReason =
          some ("Fatal error: " ++ typeErrorMessage ++ " (code: undefined)")) ∧
    (postToBlogger [⟨none, "c", []⟩] (fun _ _ => .ok ⟨"url", "id"⟩) []
      ⟨⟨-1, []⟩, [], ["Old"], none⟩).exitCode = 1 ∧
    (postToBlogger [⟨none, "c", []⟩] (fun _ _ => .ok ⟨"url", "id"⟩) []
      ⟨⟨-1, []⟩, [], ["Old"], none⟩).files.progressFile.failed = [] ∧
    (postToBlogger [⟨none, "c", []⟩] (fun _ _ => .ok ⟨"url", "id"⟩) []
      ⟨⟨-1, []⟩, [], ["Old"], none⟩).trace =
      [.report ("Fatal error: " ++ typeErrorMessage ++ " (code: undefined)")] := by
  refine ⟨?_, ?_, ?_, ?_⟩
  · intro posts ins i progress pids ets cnt files hi ht
    have h := runFrom_missing_title posts ins i progress pids ets cnt files hi ht
    exact ⟨h, by rw [h]; rfl, by rw [h]; rfl, by rw [h]; rfl⟩
  all_goals
    simp +decide [postToBlogger, runFrom, fatalAbort, typeErrorMessage]

/-- C10 witness: the fatal-abort equations applied to a concrete one-item
input whose entry lacks a title. -/
theorem c10_witness :
    runFrom [⟨none, "c", []⟩] (fun _ _ => .ok ⟨"url", "id"⟩) 0 ⟨-1, []⟩ [] []
      0 ⟨⟨-1, []⟩, [], ["Old"], none⟩ =
      fatalAbort ⟨⟨-1, []⟩, [], ["Old"], none⟩ typeErrorMessage ∧
    (runFrom [⟨none, "c", []⟩] (fun _ _ => .ok ⟨"url", "id"⟩) 0 ⟨-1, []⟩ [] []
      0 ⟨⟨-1, []⟩, [], ["Old"], none⟩).exitCode = 1 ∧
    (runFrom [⟨none, "c", []⟩] (fun _ _ => .ok ⟨"url", "id"⟩) 0 ⟨-1, []⟩ [] []
      0 ⟨⟨-1, []⟩, [], ["Old"], none⟩).files = ⟨⟨-1, []⟩, [], ["Old"], none⟩ ∧
    (runFrom [⟨none, "c", []⟩] (fun _ _ => .ok ⟨"url", "id"⟩) 0 ⟨-1, []⟩ [] []
      0 ⟨⟨-1, []⟩, [], ["Old"], none⟩).reportReason =
      some ("Fatal error: " ++ typeErrorMessage ++ " (code: undefined)") :=
  c10_missing_title_aborts_run.1 [⟨none, "c", []⟩] (fun _ _ => .ok ⟨"url", "id"⟩)
    0 ⟨-1, []⟩ [] [] 0 ⟨⟨-1, []⟩, [], ["Old"], none⟩ (by decide) rfl

end AutoPost
